import Mathlib

/-!
Verification of the SentryPrime accessibility-scanning and lawsuit-risk pipeline
(`src/services/scanner_service.py` and `src/services/lawsuit_calculator.py`),
modelled as a shallow embedding.  Network effects are captured by an explicit
`FetchWorld` record holding what each helper fetch would return; the iteration
order of the Python `set` used during page discovery is captured by an explicit
enumeration function constrained to produce a permutation of the set contents.
-/

namespace SentryPrime

/-- A violation record, as built by `ScannerService._scan_page`
(dict with keys type/severity/element/description/page). -/
structure Violation where
  vtype : String
  severity : String
  element : String
  description : String
  page : String
deriving DecidableEq, Repr

/-- An `<img>` element: its optional `alt` attribute. -/
structure Img where
  alt : Option String
deriving DecidableEq, Repr

/-- An `<a>` element: optional `href`, rendered text, optional `aria-label`,
and optional `tabindex` (the scanner never reads `tabindex`; it is carried so
that pages exercising the keyboard-focus condition can be expressed). -/
structure Anchor where
  href : Option String
  text : String
  ariaLabel : Option String
  tabindex : Option String
deriving DecidableEq, Repr

/-- An `<input>` element: optional `type`, optional `aria-label`, optional `id`,
and optional `tabindex`. -/
structure InputElem where
  itype : Option String
  ariaLabel : Option String
  id : Option String
  tabindex : Option String
deriving DecidableEq, Repr

/-- A parsed HTML document, restricted to what `_scan_page` inspects:
images, the number of `<h1>` tags, anchors, inputs, and the optional `for`
attributes of the `<label>` elements (`none` = a label with no `for`). -/
structure Page where
  imgs : List Img
  h1Count : Nat
  anchors : List Anchor
  inputs : List InputElem
  labelFors : List (Option String)
deriving DecidableEq, Repr

/-- Python truthiness test `not img.get('alt')`: the attribute is absent or
the empty string.  (Note the source also flags `alt=""`.) -/
def imgMissingAlt (img : Img) : Bool :=
  img.alt.getD "" = ""

/-- Python `str.strip()`: drop leading and trailing whitespace. -/
def pyStrip (s : String) : String :=
  String.mk (((s.data.dropWhile Char.isWhitespace).reverse.dropWhile
    Char.isWhitespace).reverse)

/-- Condition of the link rule: `link.get('href')` truthy, stripped text empty,
`aria-label` falsy. -/
def anchorUnnamed (a : Anchor) : Bool :=
  a.href.getD "" ≠ "" && pyStrip a.text = "" && a.ariaLabel.getD "" = ""

/-- Membership test of `soup.find_all('input', type=['text','email','password','tel'])`. -/
def relevantInput (i : InputElem) : Bool :=
  match i.itype with
  | some t => t = "text" || t = "email" || t = "password" || t = "tel"
  | none => false

/-- Condition of the unlabeled-input rule: no truthy `aria-label` and no
`soup.find('label', {'for': input_elem.get('id')})`.  BeautifulSoup matches a
`label` whose `for` equals the given id, or (when the input has no id, so the
filter value is `None`) a `label` carrying no `for` attribute. -/
def inputUnlabeled (doc : Page) (i : InputElem) : Bool :=
  i.ariaLabel.getD "" = "" && !(doc.labelFors.any (fun l => l == i.id))

/-- Rule evaluation of `ScannerService._scan_page` on a parsed document:
exactly four checks (images without alt, missing `<h1>`, links without an
accessible name, unlabeled text-like inputs), appended in source order. -/
def scan_page_rules (doc : Page) (url : String) : List Violation :=
  (doc.imgs.filterMap fun img =>
    if imgMissingAlt img then
      some ⟨"missing_alt_text", "serious", "img", "Image missing alt text", url⟩
    else none)
  ++ (if doc.h1Count = 0 then
      [⟨"missing_h1", "moderate", "h1", "Page missing H1 heading", url⟩]
    else [])
  ++ (doc.anchors.filterMap fun a =>
    if anchorUnnamed a then
      some ⟨"link_without_name", "serious", "a", "Link without accessible name", url⟩
    else none)
  ++ ((doc.inputs.filter relevantInput).filterMap fun i =>
    if inputUnlabeled doc i then
      some ⟨"unlabeled_input", "serious", "input", "Form input without label", url⟩
    else none)

/-- The outcomes of the network, as seen through the scanner helpers:
`sitemapUrls` is what `_get_sitemap_urls` returns (already `[]` on any fetch
failure or non-200), likewise `homepageLinks` for `_get_homepage_links` and
`commonPages` for `_get_common_pages`; `pageDoc url` is the parsed document a
GET of `url` yields in `_scan_page`, `none` standing for a fetch failure,
non-200 status or unparseable reply. -/
structure FetchWorld where
  sitemapUrls : List String
  homepageLinks : List String
  commonPages : List String
  pageDoc : String → Option Page

/-- Python `set.add` on a list-represented set: ignore an element already
present, otherwise record it. -/
def pyInsert (xs : List String) (x : String) : List String :=
  if x ∈ xs then xs else xs ++ [x]

/-- Python `set.update` with an iterable. -/
def pyUpdate (xs : List String) (ys : List String) : List String :=
  ys.foldl pyInsert xs

/-- An enumeration function is a sound model of Python `list(s)` on a set
when it returns the same elements in some order. -/
def setEnumOK (enum : List String → List String) : Prop :=
  ∀ xs : List String, List.Perm (enum xs) xs

/-- Sitemap stage of `_discover_pages`: `if sitemap_urls:
pages.update(sitemap_urls[:max_pages])`. -/
def sitemapPhase (w : FetchWorld) (max_pages : Nat) (pages : List String) :
    List String :=
  if w.sitemapUrls ≠ [] then pyUpdate pages (w.sitemapUrls.take max_pages) else pages

/-- Homepage-links stage of `_discover_pages`: only runs while the set is
below `max_pages`, and only updates when any links were found. -/
def homepagePhase (w : FetchWorld) (max_pages : Nat) (pages : List String) :
    List String :=
  if pages.length < max_pages then
    (if w.homepageLinks ≠ [] then
      pyUpdate pages (w.homepageLinks.take (max_pages - pages.length))
    else pages)
  else pages

/-- Common-path stage of `_discover_pages`: only runs while the set is below
`max_pages`. -/
def commonPhase (w : FetchWorld) (max_pages : Nat) (pages : List String) :
    List String :=
  if pages.length < max_pages then
    pyUpdate pages (w.commonPages.take (max_pages - pages.length))
  else pages

/-- The candidate set accumulated by `ScannerService._discover_pages` before
the final `list(pages)[:max_pages]`: start from `{base_url}`, then run the
three fallback stages in source order. -/
def discover_pages_set (w : FetchWorld) (base_url : String) (max_pages : Nat) :
    List String :=
  commonPhase w max_pages (homepagePhase w max_pages (sitemapPhase w max_pages [base_url]))

/-- `ScannerService._discover_pages`: the accumulated set, listed in the
(unspecified) iteration order `enum` of the Python set, truncated to
`max_pages`.  The `except` fallback `return [base_url]` is unreachable: every
discovery helper already swallows its own failures. -/
def discover_pages (enum : List String → List String) (w : FetchWorld)
    (base_url : String) (max_pages : Nat) : List String :=
  (enum (discover_pages_set w base_url max_pages)).take max_pages

/-- `ScannerService._scan_page`: a failed or non-200 fetch (and any parsing
error) yields zero violations; a parsed document is run through the rules. -/
def scan_page (w : FetchWorld) (url : String) : List Violation :=
  match w.pageDoc url with
  | none => []
  | some doc => scan_page_rules doc url

/-- Per-severity counters, the `categories` dict of
`ScannerService._categorize_violations`. -/
structure SeverityCounts where
  critical : Nat
  serious : Nat
  moderate : Nat
  minor : Nat
deriving DecidableEq, Repr

/-- One step of `_categorize_violations`: increment the counter named by the
violation severity when it is one of the four keys, silently skip otherwise. -/
def categorizeStep (c : SeverityCounts) (v : Violation) : SeverityCounts :=
  if v.severity = "critical" then { c with critical := c.critical + 1 }
  else if v.severity = "serious" then { c with serious := c.serious + 1 }
  else if v.severity = "moderate" then { c with moderate := c.moderate + 1 }
  else if v.severity = "minor" then { c with minor := c.minor + 1 }
  else c

/-- `ScannerService._categorize_violations`. -/
def categorize_violations (vs : List Violation) : SeverityCounts :=
  vs.foldl categorizeStep ⟨0, 0, 0, 0⟩

/-- Total of the four per-severity counters. -/
def SeverityCounts.total (c : SeverityCounts) : Nat :=
  c.critical + c.serious + c.moderate + c.minor

/-- `ScannerService._create_sample_violations`: for each of the first three
sample pages, keep at most two of its violations. -/
def create_sample_violations (all_violations : List Violation)
    (sample_pages : List String) : List Violation :=
  (sample_pages.take 3).foldl
    (fun acc page => acc ++ (all_violations.filter (fun v => v.page = page)).take 2)
    []

/-- The dict returned by `ScannerService.scan_website`. -/
structure ScanResult where
  pages_scanned : Nat
  total_violations : Nat
  compliance_score : Int
  pages_with_violations : Nat
  violations_by_severity : SeverityCounts
  sample_violations : List Violation
  all_violations : List Violation
deriving DecidableEq, Repr

/-- One iteration of the page loop of `scan_website`: extend the violation
list and bump `pages_with_violations` when the page produced a non-empty
violation list. -/
def scanStep (w : FetchWorld) (acc : List Violation × Nat) (page_url : String) :
    List Violation × Nat :=
  let violations := scan_page w page_url
  if violations ≠ [] then (acc.1 ++ violations, acc.2 + 1) else acc

/-- The page loop of `scan_website`. -/
def scanLoop (w : FetchWorld) (pages : List String) : List Violation × Nat :=
  pages.foldl (scanStep w) ([], 0)

/-- `ScannerService.scan_website`: discover pages, scan each, and aggregate.
Every helper swallows its own failures, so the surrounding try/except never
fires and a result dict is always returned — there is no distinct failure
outcome in the code. -/
def scan_website (enum : List String → List String) (w : FetchWorld)
    (url : String) (max_pages : Nat) : ScanResult :=
  let pages := discover_pages enum w url max_pages
  let r := scanLoop w (pages.take max_pages)
  let all_violations := r.1
  let total_violations := all_violations.length
  { pages_scanned := pages.length
    total_violations := total_violations
    compliance_score := max 0 (100 - (total_violations : Int) * 2)
    pages_with_violations := r.2
    violations_by_severity := categorize_violations all_violations
    sample_violations := create_sample_violations all_violations (pages.take 3)
    all_violations := all_violations }

/-- Python `round` on an exact rational: round half to even (banker's
rounding), the behavior of `round` on floats and ints. -/
def pyRound (q : ℚ) : Int :=
  let n := ⌊q⌋
  let r := q - (n : ℚ)
  if r < 1/2 then n
  else if (1/2 : ℚ) < r then n + 1
  else if n % 2 = 0 then n else n + 1

/-- Insert thousands separators into a digit string given least-significant
digit first; produces the characters most-significant first. -/
def commaDigits (rev : List Char) : List Char :=
  (rev.enum.foldl
    (fun acc p => if p.1 % 3 = 0 ∧ p.1 ≠ 0 then p.2 :: ',' :: acc else p.2 :: acc)
    [])

/-- Python formatting `f'{x:,.0f}'`: round half to even to an integer and
group digits by thousands. -/
def pyFormatCommas (q : ℚ) : String :=
  let n := pyRound q
  let body := String.mk (commaDigits (toString n.natAbs).data.reverse)
  if n < 0 then "-" ++ body else body

/-- One row of `LawsuitCalculator.VIOLATION_COSTS`. -/
structure CostBand where
  min : ℚ
  max : ℚ
deriving DecidableEq, Repr

/-- `LawsuitCalculator.VIOLATION_COSTS`, the severity-to-cost table. -/
def VIOLATION_COSTS (severity : String) : Option CostBand :=
  if severity = "critical" then some ⟨8000, 25000⟩
  else if severity = "serious" then some ⟨3000, 12000⟩
  else if severity = "moderate" then some ⟨1000, 5000⟩
  else if severity = "minor" then some ⟨500, 2000⟩
  else none

/-- The diminishing-returns multiplier
`min(count, 10) + (max(0, count - 10) * 0.5)`. -/
def countMultiplier (count : Nat) : ℚ :=
  ((min count 10 : Nat) : ℚ) + ((max 0 ((count : Int) - 10) : Int) : ℚ) * (1/2)

/-- One iteration of the severity loop in
`LawsuitCalculator._calculate_financial_exposure`. -/
def exposureStep (acc : ℚ × ℚ) (severity : String) (count : Nat) : ℚ × ℚ :=
  match VIOLATION_COSTS severity with
  | some cost_range =>
    if 0 < count then
      let multiplier := countMultiplier count
      (acc.1 + cost_range.min * multiplier, acc.2 + cost_range.max * multiplier)
    else acc
  | none => acc

/-- `LawsuitCalculator._calculate_financial_exposure`: fold the four entries of
the severity dict (in its insertion order) and add the base lawsuit cost of
15000 to both ends. -/
def calculate_financial_exposure (c : SeverityCounts) : ℚ × ℚ :=
  let t := exposureStep (exposureStep (exposureStep (exposureStep (0, 0)
    "critical" c.critical) "serious" c.serious) "moderate" c.moderate) "minor" c.minor
  (t.1 + 15000, t.2 + 15000)

/-- `LawsuitCalculator._calculate_lawsuit_probability`. -/
def calculate_lawsuit_probability (total_violations pages_scanned : Nat) : Int :=
  if total_violations = 0 then 5
  else
    let base_probability : ℚ := min ((total_violations : ℚ) * 2) 70
    let size_factor : ℚ := min ((pages_scanned : ℚ) / 10) 3
    let industry_baseline : ℚ := 15
    pyRound (min (base_probability + size_factor + industry_baseline) 95)

/-- `LawsuitCalculator._determine_urgency_level`. -/
def determine_urgency_level (total_violations : Nat) (lawsuit_probability : Int) :
    String :=
  if 50 < total_violations ∨ 80 < lawsuit_probability then "CRITICAL"
  else if 20 < total_violations ∨ 60 < lawsuit_probability then "HIGH"
  else if 5 < total_violations ∨ 30 < lawsuit_probability then "MEDIUM"
  else "LOW"

/-- `LawsuitCalculator._get_risk_level`. -/
def get_risk_level (probability : Int) : String :=
  if 80 ≤ probability then "EXTREME"
  else if 60 ≤ probability then "HIGH"
  else if 30 ≤ probability then "MODERATE"
  else "LOW"

/-- `LawsuitCalculator._get_probability_description`. -/
def get_probability_description (probability : Int) : String :=
  if 80 ≤ probability then
    "Your website is extremely likely to face accessibility litigation"
  else if 60 ≤ probability then
    "High probability of accessibility-related legal action"
  else if 30 ≤ probability then
    "Moderate risk of accessibility lawsuits"
  else
    "Lower risk, but accessibility compliance still recommended"

/-- `LawsuitCalculator._get_recommended_action`: dict lookup with the LOW
entry as default. -/
def get_recommended_action (urgency : String) : String :=
  if urgency = "CRITICAL" then "Immediate remediation required - contact legal counsel"
  else if urgency = "HIGH" then "Begin accessibility fixes within 30 days"
  else if urgency = "MEDIUM" then "Plan accessibility improvements within 90 days"
  else "Consider proactive accessibility improvements"

/-- `LawsuitCalculator._get_timeline`: dict lookup with the LOW entry as
default. -/
def get_timeline (urgency : String) : String :=
  if urgency = "CRITICAL" then "7-14 days"
  else if urgency = "HIGH" then "30 days"
  else if urgency = "MEDIUM" then "90 days"
  else "6 months"

/-- `LawsuitCalculator._get_risk_category`. -/
def get_risk_category (total_violations : Nat) : String :=
  if total_violations = 0 then "Compliant"
  else if total_violations < 5 then "Minor Issues"
  else if total_violations < 20 then "Moderate Risk"
  else if total_violations < 50 then "High Risk"
  else "Critical Risk"

/-- `LawsuitCalculator._get_headline_message`. -/
def get_headline_message (max_exposure : ℚ) (_probability : Int) (urgency : String) :
    String :=
  if urgency = "CRITICAL" then
    "URGENT: Your website could face $" ++ pyFormatCommas max_exposure
      ++ " in lawsuit damages"
  else if urgency = "HIGH" then
    "WARNING: $" ++ pyFormatCommas max_exposure ++ " lawsuit exposure detected"
  else if urgency = "MEDIUM" then
    "RISK ALERT: Potential $" ++ pyFormatCommas max_exposure
      ++ " in accessibility lawsuit costs"
  else
    "Protect your business from $" ++ pyFormatCommas max_exposure
      ++ " in potential lawsuit costs"

/-- `LawsuitCalculator._get_subheadline_message`. -/
def get_subheadline_message (min_exposure max_exposure : ℚ) : String :=
  "Your accessibility violations could result in $" ++ pyFormatCommas min_exposure
    ++ " to $" ++ pyFormatCommas max_exposure ++ " in legal settlements and fees"

/-- `LawsuitCalculator._get_cta_message`. -/
def get_cta_message (urgency : String) : String :=
  if urgency = "CRITICAL" ∨ urgency = "HIGH" then
    "Fix these violations immediately to protect your business"
  else
    "Start fixing violations now to avoid future lawsuits"

/-- `LawsuitCalculator._get_urgency_message`: dict lookup with the LOW entry
as default. -/
def get_urgency_message (urgency : String) : String :=
  if urgency = "CRITICAL" then
    "Your website is at EXTREME risk. Immediate action required."
  else if urgency = "HIGH" then
    "High lawsuit risk detected. Take action within 30 days."
  else if urgency = "MEDIUM" then
    "Moderate risk level. Address violations within 90 days."
  else
    "Low current risk, but prevention is always better than litigation."

/-- The messaging dict built by `LawsuitCalculator._generate_fear_messaging`. -/
structure Messaging where
  headline : String
  subheadline : String
  call_to_action : String
  urgency_message : String
  social_proof : String
deriving DecidableEq, Repr

/-- `LawsuitCalculator._generate_fear_messaging`. -/
def generate_fear_messaging (min_exposure max_exposure : ℚ) (probability : Int)
    (urgency : String) : Messaging :=
  { headline := get_headline_message max_exposure probability urgency
    subheadline := get_subheadline_message min_exposure max_exposure
    call_to_action := get_cta_message urgency
    urgency_message := get_urgency_message urgency
    social_proof :=
      "Join 1000+ businesses protecting themselves from accessibility lawsuits" }

/-- One line item of the settlement breakdown. -/
structure BreakdownItem where
  amount : ℚ
  formatted : String
  description : String
deriving DecidableEq, Repr

/-- The dict built by `LawsuitCalculator._calculate_settlement_breakdown`. -/
structure SettlementBreakdown where
  settlement_amount : BreakdownItem
  attorney_fees : BreakdownItem
  compliance_costs : BreakdownItem
  total_exposure : BreakdownItem
deriving DecidableEq, Repr

/-- `LawsuitCalculator._calculate_settlement_breakdown`.  The
`violations_by_severity` argument is accepted but unused, as in the source. -/
def calculate_settlement_breakdown (_violations_by_severity : SeverityCounts)
    (total_violations : Nat) : SettlementBreakdown :=
  let settlement_amount : ℚ :=
    if total_violations < 10 then 8000 + (total_violations : ℚ) * 1000
    else if total_violations < 50 then 15000 + (total_violations : ℚ) * 500
    else if total_violations < 100 then 25000 + (total_violations : ℚ) * 300
    else 45000 + (total_violations : ℚ) * 200
  let settlement_amount := min settlement_amount 75000
  let attorney_fees := settlement_amount * (5/2)
  let compliance_costs := settlement_amount * (3/2)
  let total_exposure := settlement_amount + attorney_fees + compliance_costs
  { settlement_amount := ⟨settlement_amount, "$" ++ pyFormatCommas settlement_amount,
      "Likely settlement amount for similar businesses"⟩
    attorney_fees := ⟨attorney_fees, "$" ++ pyFormatCommas attorney_fees,
      "Legal fees and court costs"⟩
    compliance_costs := ⟨compliance_costs, "$" ++ pyFormatCommas compliance_costs,
      "Website remediation and ongoing compliance"⟩
    total_exposure := ⟨total_exposure, "$" ++ pyFormatCommas total_exposure,
      "Total potential cost exposure"⟩ }

/-- One entry of `LawsuitCalculator.LAWSUIT_EXAMPLES`. -/
structure LawsuitExample where
  company : String
  settlement : String
  year : String
  description : String
deriving DecidableEq, Repr

/-- `LawsuitCalculator.LAWSUIT_EXAMPLES`. -/
def LAWSUIT_EXAMPLES : List LawsuitExample :=
  [⟨"Small Restaurant Chain", "$15,000 - $35,000", "2024",
    "Typical small business settlement range"⟩,
   ⟨"E-commerce Store", "$25,000 - $75,000", "2024",
    "Medium business with online sales"⟩,
   ⟨"Target Corporation", "$6,000,000", "2006",
    "Largest accessibility settlement (major corporation)"⟩,
   ⟨"Netflix", "$755,000", "2012",
    "Settlement for lack of closed captions"⟩]

/-- The `financial_exposure` part of a risk assessment. -/
structure FinancialExposureOut where
  min_amount : ℚ
  max_amount : ℚ
  formatted_range : String
deriving DecidableEq, Repr

/-- The `lawsuit_probability` part of a risk assessment. -/
structure ProbabilityOut where
  percentage : Int
  risk_level : String
  description : String
deriving DecidableEq, Repr

/-- The `urgency` part of a risk assessment. -/
structure UrgencyOut where
  level : String
  recommended_action : String
  timeline : String
deriving DecidableEq, Repr

/-- The `compliance_status` part of a risk assessment. -/
structure ComplianceStatus where
  ada_compliant : Bool
  wcag_level : String
  risk_category : String
deriving DecidableEq, Repr

/-- The dict returned by `LawsuitCalculator.calculate_risk`.  The
`clean_website` key exists only in the clean branch, hence `Option Bool`;
`settlement_breakdown` is `None` in the clean branch. -/
structure RiskAssessment where
  clean_website : Option Bool
  financial_exposure : FinancialExposureOut
  settlement_breakdown : Option SettlementBreakdown
  lawsuit_probability : ProbabilityOut
  urgency : UrgencyOut
  messaging : Messaging
  lawsuit_examples : List LawsuitExample
  compliance_status : ComplianceStatus
deriving DecidableEq, Repr

/-- `LawsuitCalculator._get_clean_website_results`. -/
def get_clean_website_results : RiskAssessment :=
  { clean_website := some true
    financial_exposure := ⟨0, 0, "$0"⟩
    settlement_breakdown := none
    lawsuit_probability := ⟨0, "NONE", "No accessibility violations detected"⟩
    urgency := ⟨"NONE", "Continue monitoring for accessibility compliance", "Ongoing"⟩
    messaging :=
      { headline := "Excellent! No accessibility violations found"
        subheadline := "Your website appears to be accessibility compliant"
        call_to_action :=
          "Keep up the great work! Consider regular monitoring to maintain compliance."
        urgency_message := "Your website is currently accessibility compliant."
        social_proof := "Join 1000+ businesses maintaining accessibility compliance" }
    lawsuit_examples := []
    compliance_status := ⟨true, "AA", "No Risk"⟩ }

/-- Ambient process state the module could observe: the state of the imported
`random` module and a wall clock.  `calculate_risk` never consults either; the
parameter exists so that independence from them is a provable statement rather
than a modelling assumption. -/
structure Ambient where
  randSeed : Nat
  clock : Nat
deriving DecidableEq, Repr

/-- `LawsuitCalculator.calculate_risk`.  The body is total, so the
try/except fallback (`get_fallback_risk`) is unreachable; the `amb` parameter
(random-module state, clock) is never read, matching a source body that calls
neither `random` nor any time function. -/
def calculate_risk (_amb : Ambient) (scan_results : ScanResult) : RiskAssessment :=
  let violations_by_severity := scan_results.violations_by_severity
  let total_violations := scan_results.total_violations
  let pages_scanned := scan_results.pages_scanned
  if total_violations = 0 then get_clean_website_results
  else
    let e := calculate_financial_exposure violations_by_severity
    let min_exposure := e.1
    let max_exposure := e.2
    let lawsuit_probability := calculate_lawsuit_probability total_violations pages_scanned
    let urgency_level := determine_urgency_level total_violations lawsuit_probability
    let fear_messaging :=
      generate_fear_messaging min_exposure max_exposure lawsuit_probability urgency_level
    let settlement_breakdown :=
      calculate_settlement_breakdown violations_by_severity total_violations
    { clean_website := none
      financial_exposure := ⟨min_exposure, max_exposure,
        "$" ++ pyFormatCommas min_exposure ++ " - $" ++ pyFormatCommas max_exposure⟩
      settlement_breakdown := some settlement_breakdown
      lawsuit_probability := ⟨lawsuit_probability, get_risk_level lawsuit_probability,
        get_probability_description lawsuit_probability⟩
      urgency := ⟨urgency_level, get_recommended_action urgency_level,
        get_timeline urgency_level⟩
      messaging := fear_messaging
      lawsuit_examples := LAWSUIT_EXAMPLES
      compliance_status := ⟨total_violations == 0,
        if total_violations < 5 then "AA" else "Fails",
        get_risk_category total_violations⟩ }

/-- A world in which every network request fails: each discovery helper
returns its failure value `[]` and every page fetch fails. -/
def unreachableWorld : FetchWorld :=
  ⟨[], [], [], fun _ => none⟩

/-- A world whose sitemap lists one page and in which every other request
fails. -/
def sitemapOnlyWorld : FetchWorld :=
  ⟨["http://e.example/a"], [], [], fun _ => none⟩

/-- A world where all discovery strategies fail and fetching
`http://w.example` yields a page with a single alt-less image and one `<h1>`. -/
def oneBadImgWorld : FetchWorld :=
  ⟨[], [], [], fun u =>
    if u = "http://w.example" then some ⟨[⟨none⟩], 1, [], [], []⟩ else none⟩

/-- A page with two `<h1>` headings and an anchor with visible text `Home`
and `tabindex="-1"`, and no other content. -/
def pageTwoH1TabIndex : Page :=
  ⟨[], 2, [⟨some "/home", "Home", none, some "-1"⟩], [], []⟩

/-- Whether a severity string is one of the four keys of the `categories`
dict of `_categorize_violations`. -/
def knownSeverity (s : String) : Bool :=
  s = "critical" ∨ s = "serious" ∨ s = "moderate" ∨ s = "minor"

lemma mem_pyInsert (xs : List String) (x a : String) (h : a ∈ xs) :
    a ∈ pyInsert xs x := by
  unfold pyInsert
  split_ifs with hx
  · exact h
  · exact List.mem_append_left _ h

lemma mem_pyUpdate (xs ys : List String) (a : String) (h : a ∈ xs) :
    a ∈ pyUpdate xs ys := by
  induction ys generalizing xs with
  | nil => exact h
  | cons y ys ih => exact ih (pyInsert xs y) (mem_pyInsert xs y a h)

lemma pyUpdate_nil (xs : List String) : pyUpdate xs [] = xs := rfl

lemma mem_sitemapPhase (w : FetchWorld) (mp : Nat) (pages : List String)
    (a : String) (h : a ∈ pages) : a ∈ sitemapPhase w mp pages := by
  unfold sitemapPhase
  split_ifs with hx
  · exact mem_pyUpdate _ _ _ h
  · exact h

lemma mem_homepagePhase (w : FetchWorld) (mp : Nat) (pages : List String)
    (a : String) (h : a ∈ pages) : a ∈ homepagePhase w mp pages := by
  unfold homepagePhase
  split_ifs with h1 h2
  · exact mem_pyUpdate _ _ _ h
  · exact h
  · exact h

lemma mem_commonPhase (w : FetchWorld) (mp : Nat) (pages : List String)
    (a : String) (h : a ∈ pages) : a ∈ commonPhase w mp pages := by
  unfold commonPhase
  split_ifs with h1
  · exact mem_pyUpdate _ _ _ h
  · exact h

lemma base_mem_discover_pages_set (w : FetchWorld) (base_url : String)
    (mp : Nat) : base_url ∈ discover_pages_set w base_url mp :=
  mem_commonPhase _ _ _ _ (mem_homepagePhase _ _ _ _ (mem_sitemapPhase _ _ _ _
    (List.mem_singleton_self base_url)))

lemma discover_pages_set_all_failed (w : FetchWorld) (base_url : String)
    (mp : Nat) (h1 : w.sitemapUrls = []) (h2 : w.homepageLinks = [])
    (h3 : w.commonPages = []) :
    discover_pages_set w base_url mp = [base_url] := by
  unfold discover_pages_set sitemapPhase homepagePhase commonPhase
  simp [h1, h2, h3, pyUpdate_nil]

lemma pyRound_ge (q : ℚ) (a : Int) (h : (a : ℚ) ≤ q) : a ≤ pyRound q := by
  have hfl : a ≤ ⌊q⌋ := Int.le_floor.mpr h
  unfold pyRound
  dsimp only
  split_ifs <;> omega

lemma pyRound_le (q : ℚ) (b : Int) (h : q ≤ (b : ℚ)) : pyRound q ≤ b := by
  have hfl : ⌊q⌋ ≤ b := by
    have := Int.floor_le_floor h
    simpa using this
  have hkey : ¬(q - (⌊q⌋ : ℚ) < 1/2) → ⌊q⌋ + 1 ≤ b := by
    intro hr
    rcases lt_or_eq_of_le hfl with h' | h'
    · omega
    · exfalso
      apply hr
      have hq : q - (⌊q⌋ : ℚ) ≤ 0 := by
        rw [h']
        linarith
      linarith
  unfold pyRound
  dsimp only
  split_ifs with hr1 hr2 hr3
  · exact hfl
  · exact hkey hr1
  · exact hfl
  · exact hkey hr1

/-- Claim C1 (code behavior at the failing input): in a world where every
fetch fails — no discovery strategy yields a page and the base URL itself is
unreachable — `scan_website` does not surface any distinct failure outcome; it
returns an ordinary successful result with `total_violations = 0` and
`compliance_score = 100`, indistinguishable from a clean compliant site. -/
theorem scan_unreachable_returns_clean_result :
    scan_website id unreachableWorld "http://unreachable.example" 50
      = { pages_scanned := 1, total_violations := 0, compliance_score := 100,
          pages_with_violations := 0, violations_by_severity := ⟨0, 0, 0, 0⟩,
          sample_violations := [], all_violations := [] } := by
  rfl

/-- Claim C2 (counterexample): the discovered pages are listed in the
arbitrary iteration order of a Python `set`, so the base URL is not guaranteed
to come first.  `List.reverse` is a sound set enumeration (it returns a
permutation of the elements), and under it a scan of `http://e.example` whose
sitemap lists one other URL returns that URL first and the base URL second. -/
theorem discover_pages_base_not_first :
    setEnumOK List.reverse
    ∧ discover_pages List.reverse sitemapOnlyWorld "http://e.example" 5
        = ["http://e.example/a", "http://e.example"] := by
  constructor
  · intro xs
    exact List.reverse_perm xs
  · rfl

/-- Claim C2 (amended): for every sound set enumeration, page discovery
returns at most `max_pages` URLs; the base URL is a member of the returned
list whenever the accumulated candidate set fits within `max_pages` (it is not
necessarily the first element); and when every strategy fails the result is
exactly `[base_url]`. -/
theorem discover_pages_contract (enum : List String → List String)
    (he : setEnumOK enum) (w : FetchWorld) (base_url : String) (max_pages : Nat)
    (hmp : 0 < max_pages) :
    (discover_pages enum w base_url max_pages).length ≤ max_pages
    ∧ ((discover_pages_set w base_url max_pages).length ≤ max_pages →
        base_url ∈ discover_pages enum w base_url max_pages)
    ∧ (w.sitemapUrls = [] → w.homepageLinks = [] → w.commonPages = [] →
        discover_pages enum w base_url max_pages = [base_url]) := by
  refine ⟨?_, ?_, ?_⟩
  · unfold discover_pages
    rw [List.length_take]
    exact min_le_left _ _
  · intro hlen
    unfold discover_pages
    have hperm := he (discover_pages_set w base_url max_pages)
    have hle : (enum (discover_pages_set w base_url max_pages)).length ≤ max_pages := by
      rw [hperm.length_eq]
      exact hlen
    rw [List.take_of_length_le hle]
    exact hperm.mem_iff.mpr (base_mem_discover_pages_set w base_url max_pages)
  · intro h1 h2 h3
    unfold discover_pages
    rw [discover_pages_set_all_failed w base_url max_pages h1 h2 h3]
    have hperm := he [base_url]
    rw [List.perm_singleton.mp hperm]
    exact List.take_of_length_le (by simpa using hmp)

/-- Witness for `discover_pages_contract` at the identity enumeration, an
all-failing world, and `max_pages = 3`. -/
theorem discover_pages_contract_witness :
    (discover_pages id unreachableWorld "http://w.example" 3).length ≤ 3
    ∧ "http://w.example" ∈ discover_pages id unreachableWorld "http://w.example" 3
    ∧ discover_pages id unreachableWorld "http://w.example" 3 = ["http://w.example"] := by
  have h := discover_pages_contract id (fun xs => List.Perm.refl xs)
    unreachableWorld "http://w.example" 3 (by norm_num)
  exact ⟨h.1, h.2.1 (by decide), h.2.2 rfl rfl rfl⟩

/-- Claim C4: every result of `scan_website` has
`compliance_score = max 0 (100 - 2 * total_violations)`, the score lies in
`[0, 100]`, a scan with exactly one violation scores 98, and a scan with zero
violations scores 100.  This holds for every world and every set-enumeration
order. -/
theorem scan_compliance_score_formula (enum : List String → List String)
    (w : FetchWorld) (url : String) (max_pages : Nat) :
    (scan_website enum w url max_pages).compliance_score
      = max 0 (100 - ((scan_website enum w url max_pages).total_violations : Int) * 2)
    ∧ 0 ≤ (scan_website enum w url max_pages).compliance_score
    ∧ (scan_website enum w url max_pages).compliance_score ≤ 100
    ∧ ((scan_website enum w url max_pages).total_violations = 1 →
        (scan_website enum w url max_pages).compliance_score = 98)
    ∧ ((scan_website enum w url max_pages).total_violations = 0 →
        (scan_website enum w url max_pages).compliance_score = 100) := by
  have hf : (scan_website enum w url max_pages).compliance_score
      = max 0 (100 - ((scan_website enum w url max_pages).total_violations : Int) * 2) :=
    rfl
  refine ⟨hf, ?_, ?_, ?_, ?_⟩
  · rw [hf]
    exact le_max_left _ _
  · rw [hf]
    have h0 : (0 : Int) ≤ ((scan_website enum w url max_pages).total_violations : Int) := by
      positivity
    omega
  · intro h1
    rw [hf, h1]
    decide
  · intro h0
    rw [hf, h0]
    decide

/-- Witness for `scan_compliance_score_formula`: a world whose base page has
exactly one image without alt text yields score 98, and an all-failing world
yields zero violations and score 100. -/
theorem scan_compliance_score_formula_witness :
    (scan_website id oneBadImgWorld "http://w.example" 5).total_violations = 1
    ∧ (scan_website id oneBadImgWorld "http://w.example" 5).compliance_score = 98
    ∧ (scan_website id unreachableWorld "http://w.example" 5).total_violations = 0
    ∧ (scan_website id unreachableWorld "http://w.example" 5).compliance_score = 100 :=
  ⟨rfl,
   (scan_compliance_score_formula id oneBadImgWorld "http://w.example" 5).2.2.2.1 rfl,
   rfl,
   (scan_compliance_score_formula id unreachableWorld "http://w.example" 5).2.2.2.2 rfl⟩

lemma length_filterMap_if {α : Type} (p : α → Bool) (g : α → Violation)
    (xs : List α) :
    (xs.filterMap fun x => if p x then some (g x) else none).length
      = (xs.filter p).length := by
  induction xs with
  | nil => rfl
  | cons x xs ih =>
    rcases Bool.eq_false_or_eq_true (p x) with h | h <;>
      simp [List.filterMap_cons, List.filter_cons, h, ih]

lemma mem_filterMap_if {α : Type} (p : α → Bool) (g : α → Violation)
    (xs : List α) (v : Violation)
    (hv : v ∈ xs.filterMap fun x => if p x then some (g x) else none) :
    ∃ x, v = g x := by
  rw [List.mem_filterMap] at hv
  rcases hv with ⟨x, _, hx⟩
  rcases Bool.eq_false_or_eq_true (p x) with h | h
  · rw [h] at hx
    simp at hx
    exact ⟨x, hx.symm⟩
  · rw [h] at hx
    simp at hx

/-- Claim C3 (counterexample): a page with two `<h1>` elements and an
interactive anchor with `tabindex="-1"` produces no violation at all — the
rule engine has no multiple-h1 rule and no keyboard-focus rule (nor
non-descriptive-link-text or color-contrast rules). -/
theorem scan_page_rules_two_h1_tabindex :
    scan_page_rules pageTwoH1TabIndex "http://e.example" = [] := by
  decide

/-- Claim C3 (amended): the rule engine evaluates exactly four rules —
missing alt text, missing `<h1>`, link without accessible name, and unlabeled
form input.  Each rule checks every applicable element without
short-circuiting: the number of emitted violations is the full count of
offending images, plus one when the page has no `<h1>`, plus the full counts
of offending anchors and unlabeled relevant inputs; and every emitted
violation carries one of those four rule types. -/
theorem scan_page_rules_characterization (doc : Page) (url : String) :
    (scan_page_rules doc url).length
      = (doc.imgs.filter imgMissingAlt).length
        + (if doc.h1Count = 0 then 1 else 0)
        + (doc.anchors.filter anchorUnnamed).length
        + ((doc.inputs.filter relevantInput).filter (inputUnlabeled doc)).length
    ∧ (scan_page_rules doc url).all
        (fun v => v.vtype == "missing_alt_text" || v.vtype == "missing_h1"
          || v.vtype == "link_without_name" || v.vtype == "unlabeled_input")
      = true := by
  constructor
  · unfold scan_page_rules
    by_cases hh : doc.h1Count = 0 <;>
      simp [hh, List.length_append, length_filterMap_if] <;> omega
  · rw [List.all_eq_true]
    intro v hv
    unfold scan_page_rules at hv
    rcases List.mem_append.mp hv with hv | hv
    · rcases List.mem_append.mp hv with hv | hv
      · rcases List.mem_append.mp hv with hv | hv
        · rcases mem_filterMap_if _ _ _ _ hv with ⟨x, rfl⟩
          rfl
        · by_cases hh : doc.h1Count = 0
          · rw [if_pos hh] at hv
            rw [List.mem_singleton.mp hv]
            rfl
          · rw [if_neg hh] at hv
            cases hv
      · rcases mem_filterMap_if _ _ _ _ hv with ⟨x, rfl⟩
        rfl
    · rcases mem_filterMap_if _ _ _ _ hv with ⟨x, rfl⟩
      rfl

/-- Claim C5 (counterexample): `_categorize_violations` does not treat an
out-of-range severity as `moderate` — a violation whose severity is `blocker`
is counted in no tier, so the per-severity counts sum to 0 on a list of
length 1. -/
theorem categorize_drops_unknown_severity :
    (categorize_violations
      [⟨"custom_rule", "blocker", "div", "Custom violation", "http://e.example"⟩]).total
      = 0
    ∧ ([⟨"custom_rule", "blocker", "div", "Custom violation", "http://e.example"⟩]
        : List Violation).length = 1 :=
  ⟨rfl, rfl⟩

lemma categorizeStep_total (c : SeverityCounts) (v : Violation) :
    (categorizeStep c v).total
      = c.total + (if knownSeverity v.severity then 1 else 0) := by
  unfold categorizeStep SeverityCounts.total
  split_ifs with h1 h2 h3 h4 <;> simp_all [knownSeverity] <;> omega

lemma categorize_foldl_total (vs : List Violation) (c : SeverityCounts) :
    (vs.foldl categorizeStep c).total
      = c.total + (vs.filter fun v => knownSeverity v.severity).length := by
  induction vs generalizing c with
  | nil => simp
  | cons v vs ih =>
    rw [List.foldl_cons, ih, categorizeStep_total]
    rcases Bool.eq_false_or_eq_true (knownSeverity v.severity) with h | h
    · simp [List.filter_cons, h]
      omega
    · simp [List.filter_cons, h]

lemma scan_page_rules_severity (doc : Page) (url : String) :
    ∀ v ∈ scan_page_rules doc url,
      v.severity = "serious" ∨ v.severity = "moderate" := by
  intro v hv
  unfold scan_page_rules at hv
  rcases List.mem_append.mp hv with hv | hv
  · rcases List.mem_append.mp hv with hv | hv
    · rcases List.mem_append.mp hv with hv | hv
      · rcases mem_filterMap_if _ _ _ _ hv with ⟨x, rfl⟩
        left
        rfl
      · by_cases hh : doc.h1Count = 0
        · rw [if_pos hh] at hv
          rw [List.mem_singleton.mp hv]
          right
          rfl
        · rw [if_neg hh] at hv
          cases hv
    · rcases mem_filterMap_if _ _ _ _ hv with ⟨x, rfl⟩
      left
      rfl
  · rcases mem_filterMap_if _ _ _ _ hv with ⟨x, rfl⟩
    left
    rfl

lemma scan_page_severity (w : FetchWorld) (url : String) :
    ∀ v ∈ scan_page w url, v.severity = "serious" ∨ v.severity = "moderate" := by
  intro v hv
  unfold scan_page at hv
  cases hw : w.pageDoc url with
  | none =>
    rw [hw] at hv
    simp at hv
  | some doc =>
    rw [hw] at hv
    exact scan_page_rules_severity doc url v hv

lemma scanLoop_severity (w : FetchWorld) (pages : List String) :
    ∀ v ∈ (scanLoop w pages).1,
      v.severity = "serious" ∨ v.severity = "moderate" := by
  have haux : ∀ (ps : List String) (acc : List Violation × Nat),
      (∀ v ∈ acc.1, v.severity = "serious" ∨ v.severity = "moderate") →
      ∀ v ∈ (ps.foldl (scanStep w) acc).1,
        v.severity = "serious" ∨ v.severity = "moderate" := by
    intro ps
    induction ps with
    | nil =>
      intro acc hacc
      simpa using hacc
    | cons p ps ih =>
      intro acc hacc
      rw [List.foldl_cons]
      apply ih
      intro v hv
      unfold scanStep at hv
      dsimp only at hv
      split_ifs at hv with hne
      · rcases List.mem_append.mp hv with h | h
        · exact hacc v h
        · exact scan_page_severity w p v h
      · exact hacc v hv
  exact haux pages ([], 0) (by intro v hv; cases hv)

/-- Claim C5 (amended): the per-severity categorization counts exactly the
violations whose severity is one of the four tiers, silently dropping any
other severity value (it does not remap it to `moderate`); since the scanner
emits only `serious` and `moderate` severities, every result of `scan_website`
still satisfies `Σ violations_by_severity = total_violations`. -/
theorem severity_counts_sum :
    (∀ vs : List Violation,
      (categorize_violations vs).total
        = (vs.filter fun v => knownSeverity v.severity).length)
    ∧ (∀ (enum : List String → List String) (w : FetchWorld) (url : String)
        (max_pages : Nat),
        ((scan_website enum w url max_pages).violations_by_severity).total
          = (scan_website enum w url max_pages).total_violations) := by
  have hbase : ∀ vs : List Violation,
      (categorize_violations vs).total
        = (vs.filter fun v => knownSeverity v.severity).length := by
    intro vs
    unfold categorize_violations
    rw [categorize_foldl_total]
    simp [SeverityCounts.total]
  refine ⟨hbase, ?_⟩
  intro enum w url max_pages
  show (categorize_violations
      (scanLoop w ((discover_pages enum w url max_pages).take max_pages)).1).total
    = (scanLoop w ((discover_pages enum w url max_pages).take max_pages)).1.length
  rw [hbase]
  have hfe : (scanLoop w ((discover_pages enum w url max_pages).take max_pages)).1.filter
      (fun v => knownSeverity v.severity)
      = (scanLoop w ((discover_pages enum w url max_pages).take max_pages)).1 := by
    rw [List.filter_eq_self]
    intro v hv
    rcases scanLoop_severity w _ v hv with h | h <;> simp [knownSeverity, h]
  rw [hfe]

lemma countMultiplier_zero : countMultiplier 0 = 0 := by
  norm_num [countMultiplier]

lemma countMultiplier_ten : countMultiplier 10 = 10 := by
  norm_num [countMultiplier]

lemma countMultiplier_twenty : countMultiplier 20 = 15 := by
  norm_num [countMultiplier]

lemma exposureStep_eq (acc : ℚ × ℚ) (severity : String) (band : CostBand)
    (hb : VIOLATION_COSTS severity = some band) (count : Nat) :
    exposureStep acc severity count
      = (acc.1 + band.min * countMultiplier count,
         acc.2 + band.max * countMultiplier count) := by
  unfold exposureStep
  rw [hb]
  dsimp only
  by_cases h : 0 < count
  · rw [if_pos h]
  · have h0 : count = 0 := by omega
    subst h0
    rw [if_neg h, countMultiplier_zero]
    simp

/-- Claim C6: financial exposure applies the diminishing-returns multiplier
`min(count, 10) + max(0, count - 10) * 0.5` per non-empty severity tier to the
cost bands (critical 8000–25000, serious 3000–12000, moderate 1000–5000,
minor 500–2000), sums across tiers, and adds 15000 to both ends; for the
serious tier alone the exposure at 20 violations is strictly less than twice
the exposure at 10. -/
theorem financial_exposure_formula :
    (∀ c : SeverityCounts,
      calculate_financial_exposure c
        = (8000 * countMultiplier c.critical + 3000 * countMultiplier c.serious
            + 1000 * countMultiplier c.moderate + 500 * countMultiplier c.minor
            + 15000,
           25000 * countMultiplier c.critical + 12000 * countMultiplier c.serious
            + 5000 * countMultiplier c.moderate + 2000 * countMultiplier c.minor
            + 15000))
    ∧ (calculate_financial_exposure ⟨0, 20, 0, 0⟩).1
        < 2 * (calculate_financial_exposure ⟨0, 10, 0, 0⟩).1
    ∧ (calculate_financial_exposure ⟨0, 20, 0, 0⟩).2
        < 2 * (calculate_financial_exposure ⟨0, 10, 0, 0⟩).2 := by
  have hc : VIOLATION_COSTS "critical" = some ⟨8000, 25000⟩ := rfl
  have hs : VIOLATION_COSTS "serious" = some ⟨3000, 12000⟩ := rfl
  have hm : VIOLATION_COSTS "moderate" = some ⟨1000, 5000⟩ := rfl
  have hn : VIOLATION_COSTS "minor" = some ⟨500, 2000⟩ := rfl
  have hformula : ∀ c : SeverityCounts,
      calculate_financial_exposure c
        = (8000 * countMultiplier c.critical + 3000 * countMultiplier c.serious
            + 1000 * countMultiplier c.moderate + 500 * countMultiplier c.minor
            + 15000,
           25000 * countMultiplier c.critical + 12000 * countMultiplier c.serious
            + 5000 * countMultiplier c.moderate + 2000 * countMultiplier c.minor
            + 15000) := by
    intro c
    unfold calculate_financial_exposure
    rw [exposureStep_eq _ _ _ hc, exposureStep_eq _ _ _ hs,
      exposureStep_eq _ _ _ hm, exposureStep_eq _ _ _ hn]
    dsimp only
    simp only [Prod.mk.injEq]
    constructor <;> ring
  refine ⟨hformula, ?_, ?_⟩
  · rw [hformula ⟨0, 20, 0, 0⟩, hformula ⟨0, 10, 0, 0⟩]
    dsimp only
    rw [countMultiplier_twenty, countMultiplier_ten, countMultiplier_zero]
    norm_num
  · rw [hformula ⟨0, 20, 0, 0⟩, hformula ⟨0, 10, 0, 0⟩]
    dsimp only
    rw [countMultiplier_twenty, countMultiplier_ten, countMultiplier_zero]
    norm_num

/-- Claim C7: a scan result with zero violations takes the dedicated clean
site branch of `calculate_risk`: the whole result is the clean-site
assessment, with lawsuit probability at most 5, urgency level NONE, and no
settlement breakdown. -/
theorem clean_site_branch (amb : Ambient) (scan_results : ScanResult)
    (h : scan_results.total_violations = 0) :
    calculate_risk amb scan_results = get_clean_website_results
    ∧ (calculate_risk amb scan_results).lawsuit_probability.percentage ≤ 5
    ∧ (calculate_risk amb scan_results).urgency.level = "NONE"
    ∧ (calculate_risk amb scan_results).settlement_breakdown = none := by
  have he : calculate_risk amb scan_results = get_clean_website_results := by
    unfold calculate_risk
    dsimp only
    rw [if_pos h]
  refine ⟨he, ?_, ?_, ?_⟩ <;> rw [he] <;> simp [get_clean_website_results]

/-- Witness for `clean_site_branch` at a concrete zero-violation result. -/
theorem clean_site_branch_witness :
    ((⟨1, 0, 100, 0, ⟨0, 0, 0, 0⟩, [], []⟩ : ScanResult).total_violations = 0)
    ∧ (calculate_risk ⟨0, 0⟩
        ⟨1, 0, 100, 0, ⟨0, 0, 0, 0⟩, [], []⟩).lawsuit_probability.percentage ≤ 5
    ∧ (calculate_risk ⟨0, 0⟩ ⟨1, 0, 100, 0, ⟨0, 0, 0, 0⟩, [], []⟩).urgency.level
        = "NONE"
    ∧ (calculate_risk ⟨0, 0⟩
        ⟨1, 0, 100, 0, ⟨0, 0, 0, 0⟩, [], []⟩).settlement_breakdown = none :=
  ⟨rfl, (clean_site_branch ⟨0, 0⟩ _ rfl).2.1, (clean_site_branch ⟨0, 0⟩ _ rfl).2.2.1,
   (clean_site_branch ⟨0, 0⟩ _ rfl).2.2.2⟩

/-- A concrete scan result with 60 violations over 30 pages. -/
def scan60 : ScanResult := ⟨30, 60, 0, 10, ⟨10, 20, 20, 10⟩, [], []⟩

/-- Claim C8: the urgency tier is decided by the first matching condition in
strict descending order — CRITICAL on more than 50 violations or probability
over 80, then HIGH (over 20 or over 60), then MEDIUM (over 5 or over 30),
else LOW; and every assessment of a scan with 60 violations is CRITICAL. -/
theorem urgency_level_tiers :
    (∀ (t : Nat) (p : Int),
      ((50 < t ∨ 80 < p) → determine_urgency_level t p = "CRITICAL")
      ∧ (¬(50 < t ∨ 80 < p) → (20 < t ∨ 60 < p) →
          determine_urgency_level t p = "HIGH")
      ∧ (¬(50 < t ∨ 80 < p) → ¬(20 < t ∨ 60 < p) → (5 < t ∨ 30 < p) →
          determine_urgency_level t p = "MEDIUM")
      ∧ (¬(50 < t ∨ 80 < p) → ¬(20 < t ∨ 60 < p) → ¬(5 < t ∨ 30 < p) →
          determine_urgency_level t p = "LOW"))
    ∧ (∀ (amb : Ambient) (scan_results : ScanResult),
        scan_results.total_violations = 60 →
        (calculate_risk amb scan_results).urgency.level = "CRITICAL") := by
  constructor
  · intro t p
    unfold determine_urgency_level
    refine ⟨?_, ?_, ?_, ?_⟩
    · intro h1
      rw [if_pos h1]
    · intro h1 h2
      rw [if_neg h1, if_pos h2]
    · intro h1 h2 h3
      rw [if_neg h1, if_neg h2, if_pos h3]
    · intro h1 h2 h3
      rw [if_neg h1, if_neg h2, if_neg h3]
  · intro amb scan_results h
    unfold calculate_risk
    dsimp only
    rw [h]
    rw [if_neg (by norm_num : ¬(60 : Nat) = 0)]
    dsimp only
    show determine_urgency_level 60
      (calculate_lawsuit_probability 60 scan_results.pages_scanned) = "CRITICAL"
    unfold determine_urgency_level
    rw [if_pos (Or.inl (by norm_num))]

/-- Witness for `urgency_level_tiers` at one concrete input per tier and a
concrete 60-violation scan result. -/
theorem urgency_level_tiers_witness :
    determine_urgency_level 60 0 = "CRITICAL"
    ∧ determine_urgency_level 21 0 = "HIGH"
    ∧ determine_urgency_level 6 0 = "MEDIUM"
    ∧ determine_urgency_level 3 10 = "LOW"
    ∧ (calculate_risk ⟨0, 0⟩ scan60).urgency.level = "CRITICAL" :=
  ⟨(urgency_level_tiers.1 60 0).1 (Or.inl (by decide)),
   (urgency_level_tiers.1 21 0).2.1 (by decide) (Or.inl (by decide)),
   (urgency_level_tiers.1 6 0).2.2.1 (by decide) (by decide) (Or.inl (by decide)),
   (urgency_level_tiers.1 3 10).2.2.2 (by decide) (by decide) (by decide),
   urgency_level_tiers.2 ⟨0, 0⟩ scan60 rfl⟩

/-- Claim C9: `calculate_risk` is deterministic — it reads neither the random
module state nor the clock, so identical scan results give identical
assessments under any two ambient states. -/
theorem calculate_risk_deterministic (amb1 amb2 : Ambient)
    (scan_results : ScanResult) :
    calculate_risk amb1 scan_results = calculate_risk amb2 scan_results := rfl

/-- Claim C10: with at least one violation (and any page count), the
probability returned by the non-clean branch lies between 17 and 95
inclusive: the 15-point baseline plus `min(2 * violations, 70) ≥ 2` forces a
floor of 17, and the cap at 95 is applied before rounding. -/
theorem lawsuit_probability_bounds (total_violations pages_scanned : Nat)
    (h : 1 ≤ total_violations) :
    17 ≤ calculate_lawsuit_probability total_violations pages_scanned
    ∧ calculate_lawsuit_probability total_violations pages_scanned ≤ 95 := by
  unfold calculate_lawsuit_probability
  rw [if_neg (by omega : ¬total_violations = 0)]
  dsimp only
  have h1 : (2 : ℚ) ≤ min ((total_violations : ℚ) * 2) 70 := by
    refine le_min ?_ (by norm_num)
    have hc : (1 : ℚ) ≤ (total_violations : ℚ) := by exact_mod_cast h
    linarith
  have h2 : (0 : ℚ) ≤ min ((pages_scanned : ℚ) / 10) 3 := by
    refine le_min ?_ (by norm_num)
    positivity
  constructor
  · apply pyRound_ge
    push_cast
    refine le_min ?_ (by norm_num)
    linarith
  · apply pyRound_le
    push_cast
    exact min_le_right _ _

/-- Witness for `lawsuit_probability_bounds` at one violation and zero
pages. -/
theorem lawsuit_probability_bounds_witness :
    (1 : Nat) ≤ 1
    ∧ 17 ≤ calculate_lawsuit_probability 1 0
    ∧ calculate_lawsuit_probability 1 0 ≤ 95 :=
  ⟨le_refl 1, (lawsuit_probability_bounds 1 0 (le_refl 1)).1,
   (lawsuit_probability_bounds 1 0 (le_refl 1)).2⟩

end SentryPrime
